import Mathlib

/-!
Verification of the netctrl-agent daemon control loop.

This file gives a shallow embedding, in Lean 4, of the core components of the
netctrl-agent repository: the exponential Backoff generator
(internal/agent/backoff.go), the deterministic identifier derivation
(internal/discovery/uuid.go, including a full SHA-256 implementation), the
instruction handler Registry (internal/instruction/handler.go), the
poll-interval instruction handler (internal/instruction/handlers), and the
agent polling loop in both of its historical variants: the per-instruction
submit variant (internal/agent/agent.go) and the piggyback-acknowledgment
variant. Durations are modelled in nanoseconds as integers, mirroring Go's
time.Duration; Go errors are modelled with Except; the external gRPC calls
are modelled by their outcomes, passed as explicit parameters.
-/

namespace NetctrlAgent

/-- One second in nanoseconds, mirroring Go's time.Second (time.Duration units). -/
def second : Int := 1000000000

/-! ## Backoff (internal/agent/backoff.go) -/

/-- InitialBackoff is the starting backoff duration (1 second). -/
def InitialBackoff : Int := 1 * second

/-- MaxBackoff is the maximum backoff duration (60 seconds). -/
def MaxBackoff : Int := 60 * second

/-- Backoff manages exponential backoff timing for retry logic. -/
structure Backoff where
  current : Int
  max : Int
deriving DecidableEq, Repr, Inhabited

/-- NewBackoff creates a new Backoff instance. -/
def NewBackoff : Backoff :=
  { current := InitialBackoff, max := MaxBackoff }

/-- Next returns the current backoff duration and increases it exponentially,
doubling each time until it reaches the maximum. Returns the value together
with the updated state. -/
def Backoff.next (b : Backoff) : Int × Backoff :=
  let current := b.current
  let doubled := b.current * 2
  let capped := if doubled > b.max then b.max else doubled
  (current, { b with current := capped })

/-- Reset resets the backoff to the initial duration. -/
def Backoff.reset (b : Backoff) : Backoff :=
  { b with current := InitialBackoff }

/-- Current returns the current backoff duration without incrementing: the
returned state is unchanged. -/
def Backoff.currentOp (b : Backoff) : Int × Backoff :=
  (b.current, b)

/-- The state left behind by one call to Current. -/
def Backoff.peek (b : Backoff) : Backoff :=
  (b.currentOp).2

/-- The list of values returned by n consecutive Next calls. -/
def Backoff.nextSeq : Nat → Backoff → List Int
  | 0, _ => []
  | Nat.succ n, b => (b.next).1 :: Backoff.nextSeq n (b.next).2

/-! ## SHA-256 and deterministic UUID (internal/discovery/uuid.go)

GenerateUUID hashes the string hostname ++ ":" ++ ip with SHA-256 and formats
the first 16 bytes of the digest as a UUID-shaped hex string. SHA-256 is
implemented here in full over lists of bytes (naturals below 256), with 32-bit
words represented as naturals reduced modulo 2^32. -/

/-- Truncation to a 32-bit word. -/
def w32 (x : Nat) : Nat := x % 4294967296

/-- Right rotation of a 32-bit word by n bits. -/
def rotr32 (n x : Nat) : Nat := w32 ((x >>> n) ||| (x <<< (32 - n)))

/-- SHA-256 choice function. -/
def shaCh (x y z : Nat) : Nat := (x &&& y) ^^^ ((x ^^^ 4294967295) &&& z)

/-- SHA-256 majority function. -/
def shaMaj (x y z : Nat) : Nat := (x &&& y) ^^^ (x &&& z) ^^^ (y &&& z)

/-- SHA-256 big sigma 0. -/
def bigSigma0 (x : Nat) : Nat := rotr32 2 x ^^^ rotr32 13 x ^^^ rotr32 22 x

/-- SHA-256 big sigma 1. -/
def bigSigma1 (x : Nat) : Nat := rotr32 6 x ^^^ rotr32 11 x ^^^ rotr32 25 x

/-- SHA-256 small sigma 0. -/
def smallSigma0 (x : Nat) : Nat := rotr32 7 x ^^^ rotr32 18 x ^^^ (x >>> 3)

/-- SHA-256 small sigma 1. -/
def smallSigma1 (x : Nat) : Nat := rotr32 17 x ^^^ rotr32 19 x ^^^ (x >>> 10)

/-- SHA-256 round constants (FIPS 180-4, written in decimal). -/
def shaK : List Nat :=
  [1116352408, 1899447441, 3049323471, 3921009573, 961987163, 1508970993,
   2453635748, 2870763221, 3624381080, 310598401, 607225278, 1426881987,
   1925078388, 2162078206, 2614888103, 3248222580, 3835390401, 4022224774,
   264347078, 604807628, 770255983, 1249150122, 1555081692, 1996064986,
   2554220882, 2821834349, 2952996808, 3210313671, 3336571891, 3584528711,
   113926993, 338241895, 666307205, 773529912, 1294757372, 1396182291,
   1695183700, 1986661051, 2177026350, 2456956037, 2730485921, 2820302411,
   3259730800, 3345764771, 3516065817, 3600352804, 4094571909, 275423344,
   430227734, 506948616, 659060556, 883997877, 958139571, 1322822218,
   1537002063, 1747873779, 1955562222, 2024104815, 2227730452, 2361852424,
   2428436474, 2756734187, 3204031479, 3329325298]

/-- SHA-256 initial hash state (FIPS 180-4, written in decimal). -/
def shaH0 : List Nat :=
  [1779033703, 3144134277, 1013904242, 2773480762,
   1359893119, 2600822924, 528734635, 1541459225]

/-- Big-endian byte decomposition of a natural, to the given width in bytes. -/
def beBytes : Nat → Nat → List Nat
  | 0, _ => []
  | Nat.succ n, x => beBytes n (x / 256) ++ [x % 256]

/-- SHA-256 message padding: append 0x80, zeros, and the 64-bit big-endian
bit length so that the total length is a multiple of 64 bytes. -/
def sha256Pad (msg : List Nat) : List Nat :=
  let bitLen := msg.length * 8
  let zeros := (120 - ((msg.length + 1) % 64)) % 64
  msg ++ [128] ++ List.replicate zeros 0 ++ beBytes 8 bitLen

/-- Group a byte list into 32-bit big-endian words. -/
def toWords : List Nat → List Nat
  | b0 :: b1 :: b2 :: b3 :: rest =>
      (((b0 * 256 + b1) * 256 + b2) * 256 + b3) :: toWords rest
  | _ => []

/-- Extend the 16 words of a block to the 64-entry message schedule. -/
def buildSchedule (init16 : List Nat) : List Nat :=
  (List.range 48).foldl
    (fun acc j =>
      let t := j + 16
      let g := fun k => acc.getD k 0
      acc ++ [w32 (smallSigma1 (g (t - 2)) + g (t - 7) + smallSigma0 (g (t - 15)) + g (t - 16))])
    init16

/-- One SHA-256 compression round on the 8-word working state. -/
def compressRound (state : List Nat) (kt wt : Nat) : List Nat :=
  let a := state.getD 0 0
  let b := state.getD 1 0
  let c := state.getD 2 0
  let d := state.getD 3 0
  let e := state.getD 4 0
  let f := state.getD 5 0
  let g := state.getD 6 0
  let h := state.getD 7 0
  let t1 := w32 (h + bigSigma1 e + shaCh e f g + kt + wt)
  let t2 := w32 (bigSigma0 a + shaMaj a b c)
  [w32 (t1 + t2), a, b, c, w32 (d + t1), e, f, g]

/-- Compress one 64-byte block into the running hash state. -/
def compressBlock (hs : List Nat) (block : List Nat) : List Nat :=
  let ws := buildSchedule (toWords block)
  let final := (List.zip shaK ws).foldl (fun st p => compressRound st p.1 p.2) hs
  List.zipWith (fun x y => w32 (x + y)) hs final

/-- Split a byte list into 64-byte chunks. -/
def chunks64 (l : List Nat) : List (List Nat) :=
  if h : l = [] then []
  else l.take 64 :: chunks64 (l.drop 64)
termination_by l.length
decreasing_by
  simp only [List.length_drop]
  have : 0 < l.length := List.length_pos.mpr h
  omega

/-- SHA-256 of a byte list, as the 32-byte digest. -/
def sha256 (msg : List Nat) : List Nat :=
  let blocks := chunks64 (sha256Pad msg)
  let final := blocks.foldl compressBlock shaH0
  final.foldr (fun w acc => beBytes 4 w ++ acc) []

/-- UTF-8 bytes of a string, as naturals. -/
def strBytes (s : String) : List Nat :=
  s.toUTF8.toList.map (fun b => b.toNat)

/-- Lowercase hexadecimal digits. -/
def hexChars : List Char :=
  String.data "0123456789abcdef"

/-- Two-digit lowercase hex rendering of one byte. -/
def byteToHex (b : Nat) : String :=
  String.mk [hexChars.getD (b / 16 % 16) '0', hexChars.getD (b % 16) '0']

/-- Lowercase hex rendering of a byte list. -/
def bytesToHex (bs : List Nat) : String :=
  String.join (bs.map byteToHex)

/-- GenerateUUID creates a deterministic UUID from hostname and IP address:
the SHA-256 hash of "hostname:ip", with the first 16 bytes formatted as a
UUID string (groups of 4, 2, 2, 2 and 6 bytes, dash-separated). -/
def GenerateUUID (hostname ip : String) : String :=
  let data := hostname ++ ":" ++ ip
  let hash := sha256 (strBytes data)
  bytesToHex (hash.take 4) ++ "-" ++
  bytesToHex ((hash.drop 4).take 2) ++ "-" ++
  bytesToHex ((hash.drop 6).take 2) ++ "-" ++
  bytesToHex ((hash.drop 8).take 2) ++ "-" ++
  bytesToHex ((hash.drop 10).take 6)

/-! ## Instructions and the handler registry (internal/instruction/handler.go) -/

/-- Instruction types of the v1 protocol. -/
inductive InstructionType where
  | UNSPECIFIED
  | POLL_INTERVAL
  | HEALTH_CHECK
  | COLLECT_HARDWARE
deriving DecidableEq, Repr, Inhabited

/-- The protobuf enum name of an instruction type, as printed by %v and %s. -/
def instructionTypeName : InstructionType → String
  | .UNSPECIFIED => "INSTRUCTION_TYPE_UNSPECIFIED"
  | .POLL_INTERVAL => "INSTRUCTION_TYPE_POLL_INTERVAL"
  | .HEALTH_CHECK => "INSTRUCTION_TYPE_HEALTH_CHECK"
  | .COLLECT_HARDWARE => "INSTRUCTION_TYPE_COLLECT_HARDWARE"

/-- One unit of remote work: id, type and an opaque payload string. -/
structure Instruction where
  id : String
  type : InstructionType
  payload : String
deriving DecidableEq, Repr, Inhabited

/-- A handler processes an instruction and returns result data (a JSON string)
or an error. The context argument of the Go interface carries no data used by
the registry and is omitted. -/
def Handler : Type := Instruction → Except String String

/-- Registry maps instruction types to handlers. A Go map holds at most one
value per key; it is modelled as a function to Option. -/
def Registry : Type := InstructionType → Option Handler

/-- NewRegistry creates a new instruction handler registry with no handlers. -/
def NewRegistry : Registry := fun _ => none

/-- Register adds a handler for a specific instruction type, overwriting any
previous handler for that type (Go map assignment). -/
def Registry.register (r : Registry) (instructionType : InstructionType) (handler : Handler) :
    Registry :=
  fun q => if q = instructionType then some handler else r q

/-- HasHandler returns true if a handler is registered for the given type. -/
def Registry.hasHandler (r : Registry) (instructionType : InstructionType) : Bool :=
  (r instructionType).isSome

/-- Execute processes an instruction using the registered handler. A nil
instruction and an unregistered instruction type are distinct errors. -/
def Registry.execute (r : Registry) (instruction : Option Instruction) : Except String String :=
  match instruction with
  | none => .error "instruction is nil"
  | some i =>
    match r i.type with
    | none => .error ("no handler registered for instruction type: " ++ instructionTypeName i.type)
    | some handler => handler i

/-- Register each binding of a list in order, earlier entries first. -/
def Registry.registerAll (r : Registry) : List (InstructionType × Handler) → Registry
  | [] => r
  | (t, h) :: rest => (r.register t h).registerAll rest

/-- The handler bound to a type by the last registration for that type in a
list of bindings, if any. -/
def lastBinding (t : InstructionType) : List (InstructionType × Handler) → Option Handler
  | [] => none
  | (t', h) :: rest =>
    match lastBinding t rest with
    | some h'' => some h''
    | none => if t = t' then some h else none

/-! ## Poll-interval handler (internal/instruction/handlers/poll_interval.go)

The handler parses the instruction payload as JSON of the shape
interval_seconds: N, validates N against the inclusive range, invokes the
callback with the new duration, and returns a status/interval result. The
call to encoding/json Unmarshal is external library code and is modelled by
a parse parameter: none models a payload that does not unmarshal, some n a
payload that unmarshals with IntervalSeconds = n (0 when the field is
absent). Callback invocations are returned explicitly as the list of
durations passed to the callback. The success result, a JSON object with
keys status and interval_seconds, is modelled structurally. -/

/-- MinPollInterval is the minimum allowed polling interval in seconds. -/
def MinPollInterval : Int := 10

/-- MaxPollInterval is the maximum allowed polling interval in seconds. -/
def MaxPollInterval : Int := 300

/-- The success result object of the poll-interval handler. -/
structure PollIntervalResult where
  status : String
  interval_seconds : Int
deriving DecidableEq, Repr, Inhabited

/-- Execute of the poll-interval handler: outcome paired with the list of
callback invocations (durations in nanoseconds). -/
def PollIntervalHandler.execute (parse : String → Option Int) (instruction : Option Instruction) :
    Except String PollIntervalResult × List Int :=
  match instruction with
  | none => (.error "instruction is nil", [])
  | some i =>
    match parse i.payload with
    | none => (.error "failed to parse poll interval payload", [])
    | some n =>
      if n < MinPollInterval ∨ n > MaxPollInterval then
        (.error ("poll interval " ++ toString n ++ " seconds is out of range [10, 300]"), [])
      else
        (.ok { status := "ok", interval_seconds := n }, [n * second])

/-! ## Poll cycle, per-instruction submit variant (internal/agent/agent.go) -/

/-- The oneof result body of the InstructionResult proto message. The parsed
hardware collection payload is kept opaque. -/
inductive ProtoResultBody where
  | hardwareCollection (data : String)
  | healthCheck (healthy : Bool) (errorMessage : String)
deriving DecidableEq, Repr, Inhabited

/-- The InstructionResult proto message. -/
structure InstructionResultMsg where
  instructionType : InstructionType
  result : ProtoResultBody
deriving DecidableEq, Repr, Inhabited

/-- convertToProtoResult converts a JSON result string to an InstructionResult
proto message. Parsing the hardware JSON (encoding/json) is modelled by the
parseHardware parameter. -/
def convertToProtoResult (parseHardware : String → Option String)
    (instructionType : InstructionType) (resultData : String) :
    Except String InstructionResultMsg :=
  match instructionType with
  | .COLLECT_HARDWARE =>
    match parseHardware resultData with
    | none => .error "failed to parse hardware result"
    | some hw => .ok { instructionType := instructionType, result := .hardwareCollection hw }
  | .HEALTH_CHECK =>
    .ok { instructionType := instructionType, result := .healthCheck true "" }
  | _ => .error ("unsupported instruction type: " ++ instructionTypeName instructionType)

/-- createErrorResult creates an InstructionResult with error information;
the health-check result doubles as a generic error carrier for other types. -/
def createErrorResult (instructionType : InstructionType) (errMsg : String) :
    InstructionResultMsg :=
  match instructionType with
  | .HEALTH_CHECK =>
    { instructionType := instructionType, result := .healthCheck false errMsg }
  | _ =>
    { instructionType := instructionType,
      result := .healthCheck false ("instruction failed: " ++ errMsg) }

/-- One result submission to the server: the instruction id and the final
InstructionResult passed to SubmitInstructionResult. -/
structure Submission where
  instructionId : String
  result : InstructionResultMsg
deriving DecidableEq, Repr, Inhabited

/-- The single submission produced for one instruction by the processing loop
of the submit variant: a synthesized failure when no handler is registered, a
failure carrying the handler's error text when execution fails, a failure
carrying the conversion error when the result cannot be converted, and the
converted result otherwise. -/
def submissionFor (parseHardware : String → Option String) (r : Registry) (i : Instruction) :
    Submission :=
  if r.hasHandler i.type = false then
    { instructionId := i.id,
      result := createErrorResult i.type
        ("no handler registered for instruction type " ++ instructionTypeName i.type) }
  else
    match r.execute (some i) with
    | .error e => { instructionId := i.id, result := createErrorResult i.type e }
    | .ok resultData =>
      match convertToProtoResult parseHardware i.type resultData with
      | .error e => { instructionId := i.id, result := createErrorResult i.type e }
      | .ok res => { instructionId := i.id, result := res }

/-- The instruction-processing loop of the submit variant (agent.go poll,
lines 134-171): one submission per instruction, in order. -/
def processInstructions (parseHardware : String → Option String) (r : Registry) :
    List Instruction → List Submission
  | [] => []
  | i :: rest =>
    let sub :=
      if r.hasHandler i.type = false then
        { instructionId := i.id,
          result := createErrorResult i.type
            ("no handler registered for instruction type " ++ instructionTypeName i.type) }
      else
        match r.execute (some i) with
        | .error e => { instructionId := i.id, result := createErrorResult i.type e }
        | .ok resultData =>
          match convertToProtoResult parseHardware i.type resultData with
          | .error e => { instructionId := i.id, result := createErrorResult i.type e }
          | .ok res => { instructionId := i.id, result := res }
    sub :: processInstructions parseHardware r rest

/-! ## Poll cycle, piggyback variant -/

/-- Mutable agent state of the piggyback variant: identity fields, the
last-instruction acknowledgment fields and the poll interval (nanoseconds). -/
structure PiggybackAgentState where
  agentID : String
  hostname : String
  ipAddress : String
  lastInstructionID : String
  lastResultData : String
  pollInterval : Int
deriving DecidableEq, Repr, Inhabited

/-- Minimal JSON string escaping (backslash and double quote), as applied by
encoding/json Marshal to the error text. -/
def jsonEscape (s : String) : String :=
  String.join (s.data.map (fun c =>
    if c = '\\' then "\\\\" else if c = '\"' then "\\\"" else String.mk [c]))

/-- The JSON serialization of the error result map stored by the piggyback
variant; Go's Marshal of a map emits keys in sorted order. -/
def errorResultJSON (e : String) : String :=
  "\x7b\"error\":\"" ++ jsonEscape e ++ "\",\"status\":\"error\"\x7d"

/-- One iteration of the piggyback instruction loop: an instruction with no
registered handler is skipped and nothing is recorded; otherwise the outcome
is stored into the last-instruction fields (overwriting) and recorded. The
second component lists the results recorded during the iteration. -/
def piggybackStep (r : Registry) (st : PiggybackAgentState) (i : Instruction) :
    PiggybackAgentState × List (String × String) :=
  if r.hasHandler i.type = false then
    (st, [])
  else
    match r.execute (some i) with
    | .error e =>
      let res := errorResultJSON e
      ({ st with lastInstructionID := i.id, lastResultData := res }, [(i.id, res)])
    | .ok resultData =>
      ({ st with lastInstructionID := i.id, lastResultData := resultData },
       [(i.id, resultData)])

/-- The instruction-processing loop of the piggyback variant, threading the
state and concatenating the recorded results. -/
def piggybackProcess (r : Registry) (st : PiggybackAgentState) :
    List Instruction → PiggybackAgentState × List (String × String)
  | [] => (st, [])
  | i :: rest =>
    let (st', recs) := piggybackStep r st i
    let (st'', recs') := piggybackProcess r st' rest
    (st'', recs ++ recs')

/-! ## Poll-interval update from a response, and the full poll cycles -/

/-- The server response to GetInstructions, as used by the loop. -/
structure GetInstructionsResponse where
  instructions : List Instruction
  pollIntervalSeconds : Int
deriving Repr, Inhabited

/-- The poll-interval update applied to the agent state from a response
(agent.go poll: if the response carries a positive value, adopt it; no
range validation is applied). -/
def updateIntervalFromResponse (cur : Int) (respSeconds : Int) : Int :=
  if 0 < respSeconds then
    let newInterval := respSeconds * second
    if newInterval ≠ cur then newInterval else cur
  else cur

/-- Mutable agent state of the submit variant. -/
structure SubmitAgentState where
  agentID : String
  hostname : String
  ipAddress : String
  pollInterval : Int
deriving DecidableEq, Repr, Inhabited

/-- One poll cycle of the submit variant. The gRPC client construction and
the GetInstructions call are external; their outcomes are parameters. The
cycle returns its error outcome, the updated state, and the submissions. -/
def pollSubmit (parseHardware : String → Option String) (r : Registry)
    (st : SubmitAgentState)
    (clientResult : Except String Unit)
    (fetchResult : Except String GetInstructionsResponse) :
    Except String Unit × SubmitAgentState × List Submission :=
  match clientResult with
  | .error e => (.error ("failed to create gRPC client: " ++ e), st, [])
  | .ok _ =>
    match fetchResult with
    | .error e => (.error ("failed to get instructions: " ++ e), st, [])
    | .ok resp =>
      let st' := { st with
        pollInterval := updateIntervalFromResponse st.pollInterval resp.pollIntervalSeconds }
      (.ok (), st', processInstructions parseHardware r resp.instructions)

/-- One poll cycle of the piggyback variant: after a successful fetch the
previous result data is cleared (it has been sent), then the instruction loop
runs. Failures before that leave the state untouched. -/
def pollPiggyback (r : Registry) (st : PiggybackAgentState)
    (clientResult : Except String Unit)
    (fetchResult : Except String GetInstructionsResponse) :
    Except String Unit × PiggybackAgentState × List (String × String) :=
  match clientResult with
  | .error e => (.error ("failed to create gRPC client: " ++ e), st, [])
  | .ok _ =>
    match fetchResult with
    | .error e => (.error ("failed to get instructions: " ++ e), st, [])
    | .ok resp =>
      let st₁ := { st with
        pollInterval := updateIntervalFromResponse st.pollInterval resp.pollIntervalSeconds }
      let st₂ := { st₁ with lastResultData := "" }
      let (st₃, recs) := piggybackProcess r st₂ resp.instructions
      (.ok (), st₃, recs)

/-! ## The daemon loop tick and shutdown (agent.go Run) -/

/-- The loop state visible across ticks: the stored poll interval, the
backoff, and the period the periodic ticker is currently armed at. -/
structure LoopState where
  pollInterval : Int
  backoff : Backoff
  tickerPeriod : Int
deriving DecidableEq, Repr

/-- Observable effects of one tick: the synchronous backoff sleep performed,
if any, and whether the ticker was re-armed. -/
structure TickEffects where
  backoffSleep : Option Int
  tickerRearmed : Bool
deriving DecidableEq, Repr

/-- One iteration of the ticker branch of Run: a failed poll cycle (outcome
none) advances the backoff and sleeps for the returned delay, leaving the
ticker cadence untouched; a successful cycle applies the response's interval
update, resets the backoff, and re-arms the ticker at the current (possibly
just-updated) poll interval. The further mutation of the stored interval by
the poll-interval handler callback during instruction processing is modelled
by tickSuccess below, which refines the success branch. -/
def tickStep (st : LoopState) (pollOutcome : Option GetInstructionsResponse) :
    LoopState × TickEffects :=
  match pollOutcome with
  | none =>
    let (sleepDuration, b') := st.backoff.next
    ({ st with backoff := b' },
     { backoffSleep := some sleepDuration, tickerRearmed := false })
  | some resp =>
    let newPollInterval := updateIntervalFromResponse st.pollInterval resp.pollIntervalSeconds
    ({ pollInterval := newPollInterval, backoff := st.backoff.reset,
       tickerPeriod := newPollInterval },
     { backoffSleep := none, tickerRearmed := true })

/-- The stored poll interval after the agent as configured by New processes
one instruction of the batch: New wires the poll-interval handler with the
updatePollInterval callback, so a POLL_INTERVAL instruction hands its payload
to that handler and each callback invocation overwrites the stored interval;
instructions of every other registered or unregistered type never touch it. -/
def intervalAfterInstruction (parse : String → Option Int) (cur : Int) (i : Instruction) : Int :=
  if i.type = .POLL_INTERVAL then
    (PollIntervalHandler.execute parse (some i)).2.foldl (fun _ d => d) cur
  else cur

/-- The stored poll interval after the configured agent processes a whole
batch, in order. -/
def intervalAfterBatch (parse : String → Option Int) (cur : Int)
    (batch : List Instruction) : Int :=
  batch.foldl (intervalAfterInstruction parse) cur

/-- One successful tick of the agent as configured by New (Run lines 88-101
with poll inlined): the response-level interval update is applied first,
then the batch is processed, during which the poll-interval handler callback
may overwrite the stored interval again; finally the backoff is reset and
the ticker re-armed at the then-current interval. This refines the success
branch of tickStep with the instruction-processing path. -/
def tickSuccess (parse : String → Option Int) (st : LoopState)
    (resp : GetInstructionsResponse) : LoopState × TickEffects :=
  let afterResponse := updateIntervalFromResponse st.pollInterval resp.pollIntervalSeconds
  let afterInstructions := intervalAfterBatch parse afterResponse resp.instructions
  ({ pollInterval := afterInstructions, backoff := st.backoff.reset,
     tickerPeriod := afterInstructions },
   { backoffSleep := none, tickerRearmed := true })

/-- A Go context, reduced to what the shutdown path observes: whether it is
cancelled, its error (the cancellation cause, none while live), and its
deadline budget. -/
structure Ctx where
  cancelled : Bool
  err : Option String
  timeout : Option Int
deriving DecidableEq, Repr

/-- The observable outcome of the shutdown branch: the unregister calls made
(context used and call result) and the error returned to the caller. -/
structure ShutdownOutcome where
  unregisterCalls : List (Ctx × Except String Unit)
  returned : Option String
deriving Repr

/-- The cancellation branch of Run: build a fresh background context with a
10-second timeout, attempt one unregister call with it (its failure is only
logged), and return the loop context's error. -/
def shutdownOnCancel (loopCtx : Ctx) (unregister : Ctx → Except String Unit) :
    ShutdownOutcome :=
  let unregisterCtx : Ctx := { cancelled := false, err := none, timeout := some (10 * second) }
  let unregisterResult := unregister unregisterCtx
  { unregisterCalls := [(unregisterCtx, unregisterResult)], returned := loopCtx.err }

/-! ## Concrete fixtures used by witnesses and counterexamples -/

/-- A handler that always succeeds with a fixed result string. -/
def handlerOk : Handler := fun _ => .ok "ok-result"

/-- A handler that always fails. -/
def handlerFail : Handler := fun _ => .error "boom"

/-- A registry holding only a health-check handler. -/
def cxRegistry : Registry := NewRegistry.register .HEALTH_CHECK handlerOk

/-- A concrete piggyback agent state before a poll cycle. -/
def cxPiggybackState : PiggybackAgentState :=
  { agentID := "agent-1", hostname := "host", ipAddress := "10.0.0.1",
    lastInstructionID := "", lastResultData := "", pollInterval := 60 * second }

/-- A one-instruction batch whose instruction type has no registered handler
in cxRegistry. -/
def cxBatch : List Instruction :=
  [{ id := "i1", type := .UNSPECIFIED, payload := "" }]

/-- A concrete loop state armed at a 60-second cadence. -/
def cxLoopState : LoopState :=
  { pollInterval := 60 * second, backoff := NewBackoff, tickerPeriod := 60 * second }

/-- A valid poll-interval instruction directing 120 seconds. -/
def cxIntervalInstruction : Instruction :=
  { id := "pi1", type := .POLL_INTERVAL, payload := "\x7b\"interval_seconds\": 120\x7d" }

/-- A parse function behaving as json.Unmarshal does on the fixture
payloads: the 120-second payload parses to 120, everything else fails. -/
def cxParse : String → Option Int :=
  fun s => if s = cxIntervalInstruction.payload then some 120 else none

/-- A response directing a 30-second interval while also carrying the valid
120-second poll-interval instruction. -/
def cxResponse30Override : GetInstructionsResponse :=
  { instructions := [cxIntervalInstruction], pollIntervalSeconds := 30 }

/-- A response directing a 30-second interval whose batch holds one
health-check instruction. -/
def cxResponse30Health : GetInstructionsResponse :=
  { instructions := [{ id := "hc1", type := .HEALTH_CHECK, payload := "" }],
    pollIntervalSeconds := 30 }

/-! ## Theorems -/

/-- C2: for a freshly constructed Backoff, nine consecutive next calls return
exactly 1, 2, 4, 8, 16, 32, 60, 60, 60 seconds; after any state, reset
followed by next returns 1 second; current returns the current delay without
changing the state, so any number of current calls leaves the value returned
by the following next unchanged. -/
theorem backoff_contract :
    Backoff.nextSeq 9 NewBackoff
      = [1 * second, 2 * second, 4 * second, 8 * second, 16 * second, 32 * second,
         60 * second, 60 * second, 60 * second]
    ∧ (∀ b : Backoff, ((b.reset).next).1 = 1 * second)
    ∧ (∀ b : Backoff, b.currentOp = (b.current, b))
    ∧ (∀ (b : Backoff) (n : Nat), ((Backoff.peek)^[n] b).next = b.next) := by
  have hpeek : ∀ (m : Nat) (c : Backoff), (Backoff.peek)^[m] c = c := by
    intro m
    induction m with
    | zero => intro c; rfl
    | succ k ih =>
      intro c
      rw [Function.iterate_succ_apply]
      exact ih _
  exact ⟨by decide, fun b => rfl, fun b => rfl, fun b n => by rw [hpeek n b]⟩

/-- C8: execute distinguishes an absent instruction from an unregistered
type with distinct errors and succeeds in neither case; register overwrites
the previous handler for the same type and leaves other types alone, and
after any sequence of registrations the last registration for a type wins. -/
theorem registry_contract :
    (∀ r : Registry, r.execute none = .error "instruction is nil")
    ∧ (∀ (r : Registry) (i : Instruction), r i.type = none →
        r.execute (some i)
          = .error ("no handler registered for instruction type: "
              ++ instructionTypeName i.type))
    ∧ (∀ t : InstructionType,
        "instruction is nil"
          ≠ "no handler registered for instruction type: " ++ instructionTypeName t)
    ∧ (∀ (r : Registry) (t : InstructionType) (h : Handler),
        (r.register t h) t = some h ∧ ∀ q, q ≠ t → (r.register t h) q = r q)
    ∧ (∀ (r : Registry) (l : List (InstructionType × Handler)) (t : InstructionType),
        (r.registerAll l) t
          = match lastBinding t l with
            | some h => some h
            | none => r t) := by
  refine ⟨fun r => rfl, ?_, ?_, ?_, ?_⟩
  · intro r i hnone
    simp [Registry.execute, hnone]
  · intro t
    cases t <;> decide
  · intro r t h
    refine ⟨by simp [Registry.register], fun q hq => by simp [Registry.register, hq]⟩
  · intro r l
    induction l generalizing r with
    | nil => intro t; rfl
    | cons p rest ih =>
      intro t
      obtain ⟨t', h⟩ := p
      simp only [Registry.registerAll, lastBinding]
      rw [ih]
      cases hlb : lastBinding t rest with
      | some h'' => simp
      | none =>
        simp only
        by_cases ht : t = t'
        · simp [Registry.register, ht]
        · simp [Registry.register, ht]

/-- Witness for registry_contract at concrete inputs: the unregistered-type
error on the empty registry, and the frame of register on another type. -/
theorem registry_contract_witness :
    Registry.execute NewRegistry (some { id := "i1", type := .POLL_INTERVAL, payload := "" })
      = .error ("no handler registered for instruction type: "
          ++ instructionTypeName InstructionType.POLL_INTERVAL)
    ∧ (NewRegistry.register .HEALTH_CHECK handlerOk) .POLL_INTERVAL
        = NewRegistry .POLL_INTERVAL :=
  ⟨registry_contract.2.1 NewRegistry { id := "i1", type := .POLL_INTERVAL, payload := "" } rfl,
   (registry_contract.2.2.2.1 NewRegistry .HEALTH_CHECK handlerOk).2 .POLL_INTERVAL
     (by decide)⟩

/-- C5 (amended): the derived identifier is deterministic, and depends on the
pair only through the joined string hostname ++ ":" ++ address: any two pairs
with the same joined string yield bit-for-bit identical identifiers. Pairs
differing in hostname or address are not guaranteed distinct identifiers. -/
theorem generateUUID_deterministic :
    (∀ hn ip : String, GenerateUUID hn ip = GenerateUUID hn ip)
    ∧ (∀ h₁ i₁ h₂ i₂ : String, h₁ ++ ":" ++ i₁ = h₂ ++ ":" ++ i₂ →
        GenerateUUID h₁ i₁ = GenerateUUID h₂ i₂) := by
  refine ⟨fun hn ip => rfl, fun h₁ i₁ h₂ i₂ hj => ?_⟩
  unfold GenerateUUID
  rw [hj]

/-- Witness for generateUUID_deterministic at concrete strings whose joined
forms coincide. -/
theorem generateUUID_deterministic_witness :
    GenerateUUID "x:y" "z" = GenerateUUID "x" "y:z" :=
  generateUUID_deterministic.2 "x:y" "z" "x" "y:z" (by decide)

/-- C5 counterexample: the pairs (hostname, address) = ("a:b", "c") and
("a", "b:c") differ in hostname and in address, yet both hash the joined
string "a:b:c" and so derive the identical identifier, refuting the claim
that pairs differing in hostname or address always yield different values. -/
theorem generateUUID_collision :
    GenerateUUID "a:b" "c" = GenerateUUID "a" "b:c"
    ∧ ("a:b" : String) ≠ "a" ∧ ("c" : String) ≠ "b:c" := by
  refine ⟨?_, by decide, by decide⟩
  have hj : ("a:b" ++ ":" ++ "c" : String) = "a" ++ ":" ++ "b:c" := by decide
  unfold GenerateUUID
  rw [hj]

/-- C4: the poll-interval handler succeeds exactly on payloads that parse
with an interval inside 10..300 inclusive, returning the ok result and
invoking the callback once with that many seconds; an unparseable payload or
an out-of-range interval produces an error and no callback invocation. -/
theorem pollIntervalHandler_contract (parse : String → Option Int) (i : Instruction) :
    (∀ n : Int, parse i.payload = some n → MinPollInterval ≤ n → n ≤ MaxPollInterval →
      PollIntervalHandler.execute parse (some i)
        = (.ok { status := "ok", interval_seconds := n }, [n * second]))
    ∧ (parse i.payload = none →
      PollIntervalHandler.execute parse (some i)
        = (.error "failed to parse poll interval payload", []))
    ∧ (∀ n : Int, parse i.payload = some n → (n < MinPollInterval ∨ MaxPollInterval < n) →
      PollIntervalHandler.execute parse (some i)
        = (.error ("poll interval " ++ toString n ++ " seconds is out of range [10, 300]"),
           [])) := by
  refine ⟨?_, ?_, ?_⟩
  · intro n hp hlo hhi
    simp only [PollIntervalHandler.execute, hp]
    rw [if_neg]
    intro hcon
    rcases hcon with hlt | hgt
    · exact absurd hlo (not_le.mpr hlt)
    · exact absurd hhi (not_le.mpr hgt)
  · intro hp
    simp [PollIntervalHandler.execute, hp]
  · intro n hp hrange
    simp only [PollIntervalHandler.execute, hp]
    rw [if_pos]
    exact hrange

/-- Witness for pollIntervalHandler_contract: payload parsing to 120 yields
the ok result and one callback invocation; unparseable, 5 and 301 payloads
fail with no callback invocation. -/
theorem pollIntervalHandler_contract_witness :
    PollIntervalHandler.execute (fun _ => some 120)
        (some { id := "t1", type := .POLL_INTERVAL, payload := "p" })
      = (.ok { status := "ok", interval_seconds := 120 }, [120 * second])
    ∧ PollIntervalHandler.execute (fun _ => none)
        (some { id := "t2", type := .POLL_INTERVAL, payload := "bad" })
      = (.error "failed to parse poll interval payload", [])
    ∧ PollIntervalHandler.execute (fun _ => some 5)
        (some { id := "t3", type := .POLL_INTERVAL, payload := "p" })
      = (.error ("poll interval " ++ toString (5 : Int)
          ++ " seconds is out of range [10, 300]"), [])
    ∧ PollIntervalHandler.execute (fun _ => some 301)
        (some { id := "t4", type := .POLL_INTERVAL, payload := "p" })
      = (.error ("poll interval " ++ toString (301 : Int)
          ++ " seconds is out of range [10, 300]"), []) :=
  ⟨(pollIntervalHandler_contract (fun _ => some 120)
      { id := "t1", type := .POLL_INTERVAL, payload := "p" }).1 120 rfl (by decide) (by decide),
   (pollIntervalHandler_contract (fun _ => none)
      { id := "t2", type := .POLL_INTERVAL, payload := "bad" }).2.1 rfl,
   (pollIntervalHandler_contract (fun _ => some 5)
      { id := "t3", type := .POLL_INTERVAL, payload := "p" }).2.2 5 rfl (by decide),
   (pollIntervalHandler_contract (fun _ => some 301)
      { id := "t4", type := .POLL_INTERVAL, payload := "p" }).2.2 301 rfl (by decide)⟩

/-- C1 (amended): in the per-instruction submit variant (agent.go), the
processing loop submits exactly one result per instruction of the batch, in
order, each depending only on its own instruction: an unregistered type
yields a synthesized failure result, a failing handler yields a failure
result carrying its error text, and no instruction is skipped nor the batch
aborted. -/
theorem poll_one_submission_per_instruction (parseHardware : String → Option String)
    (r : Registry) (batch : List Instruction) :
    processInstructions parseHardware r batch = batch.map (submissionFor parseHardware r)
    ∧ (processInstructions parseHardware r batch).length = batch.length
    ∧ (∀ i : Instruction, (submissionFor parseHardware r i).instructionId = i.id)
    ∧ (∀ i : Instruction, r.hasHandler i.type = false →
        submissionFor parseHardware r i
          = { instructionId := i.id,
              result := createErrorResult i.type
                ("no handler registered for instruction type " ++ instructionTypeName i.type) })
    ∧ (∀ (i : Instruction) (e : String), r.hasHandler i.type = true →
        r.execute (some i) = .error e →
        submissionFor parseHardware r i
          = { instructionId := i.id, result := createErrorResult i.type e }) := by
  have hmap : processInstructions parseHardware r batch
      = batch.map (submissionFor parseHardware r) := by
    induction batch with
    | nil => rfl
    | cons i rest ih =>
      simp only [processInstructions, List.map, ih]
      rfl
  refine ⟨hmap, by rw [hmap]; exact List.length_map _ _, ?_, ?_, ?_⟩
  · intro i
    unfold submissionFor
    split
    · rfl
    · split
      · rfl
      · split <;> rfl
  · intro i hnh
    simp [submissionFor, hnh]
  · intro i e hh hexec
    unfold submissionFor
    rw [if_neg (by simp [hh]), hexec]

/-- Witness for poll_one_submission_per_instruction: on a registry holding
only a health-check handler, an instruction of unregistered type yields the
synthesized failure, and a failing health-check handler yields a failure
carrying its error text. -/
theorem poll_one_submission_per_instruction_witness :
    submissionFor (fun _ => none) cxRegistry { id := "i1", type := .UNSPECIFIED, payload := "" }
      = { instructionId := "i1",
          result := createErrorResult .UNSPECIFIED
            ("no handler registered for instruction type "
              ++ instructionTypeName InstructionType.UNSPECIFIED) }
    ∧ submissionFor (fun _ => none) (NewRegistry.register .HEALTH_CHECK handlerFail)
        { id := "i2", type := .HEALTH_CHECK, payload := "" }
      = { instructionId := "i2", result := createErrorResult .HEALTH_CHECK "boom" } :=
  ⟨(poll_one_submission_per_instruction (fun _ => none) cxRegistry []).2.2.2.1
      { id := "i1", type := .UNSPECIFIED, payload := "" } rfl,
   (poll_one_submission_per_instruction (fun _ => none)
      (NewRegistry.register .HEALTH_CHECK handlerFail) []).2.2.2.2
      { id := "i2", type := .HEALTH_CHECK, payload := "" } "boom" rfl rfl⟩

/-- C1 counterexample: in the piggyback variant, a batch of one instruction
whose type has no registered handler is processed with no result recorded at
all (the acknowledgment fields are left unchanged and nothing is stored), so
the batch of one instruction yields zero reported results rather than one
synthesized failure. -/
theorem piggyback_drops_unhandled_instruction :
    (piggybackProcess cxRegistry cxPiggybackState cxBatch).2 = []
    ∧ cxBatch.length = 1
    ∧ (piggybackProcess cxRegistry cxPiggybackState cxBatch).1 = cxPiggybackState :=
  ⟨rfl, rfl, rfl⟩

/-- C3 counterexample: with a stored 60-second interval, a response carrying
pollIntervalSeconds = 30 (positive and different from the stored value)
together with a valid 120-second POLL_INTERVAL instruction re-arms the
ticker at 120 seconds, the value written by the handler callback after the
response-level update and before the re-arm, not at the response's 30
seconds, so the next tick does not occur after the response's new interval. -/
theorem interval_rearm_overridden_by_handler :
    0 < cxResponse30Override.pollIntervalSeconds
    ∧ cxResponse30Override.pollIntervalSeconds * second ≠ cxLoopState.pollInterval
    ∧ (tickSuccess cxParse cxLoopState cxResponse30Override).1.pollInterval = 120 * second
    ∧ (tickSuccess cxParse cxLoopState cxResponse30Override).1.tickerPeriod = 120 * second
    ∧ (tickSuccess cxParse cxLoopState cxResponse30Override).1.tickerPeriod
        ≠ cxResponse30Override.pollIntervalSeconds * second := by
  refine ⟨by decide, by decide, by decide, by decide, by decide⟩

/-- C3 (amended): a successful poll cycle whose response carries a positive
pollIntervalSeconds different from the stored interval updates the stored
interval to the response value when the response is received, and re-arms
the periodic ticker at the interval current after instruction processing;
whenever no POLL_INTERVAL instruction of the batch invokes the handler
callback, that interval is the response's new value, so the next tick
occurs after the new interval rather than the old one. -/
theorem poll_interval_rearm_without_override (parse : String → Option Int)
    (st : LoopState) (resp : GetInstructionsResponse)
    (hpos : 0 < resp.pollIntervalSeconds)
    (hne : resp.pollIntervalSeconds * second ≠ st.pollInterval)
    (hnoCb : ∀ i ∈ resp.instructions, i.type = .POLL_INTERVAL →
        (PollIntervalHandler.execute parse (some i)).2 = []) :
    updateIntervalFromResponse st.pollInterval resp.pollIntervalSeconds
      = resp.pollIntervalSeconds * second
    ∧ (tickSuccess parse st resp).1.pollInterval = resp.pollIntervalSeconds * second
    ∧ (tickSuccess parse st resp).1.tickerPeriod = resp.pollIntervalSeconds * second
    ∧ (tickSuccess parse st resp).2.tickerRearmed = true := by
  have hupd : updateIntervalFromResponse st.pollInterval resp.pollIntervalSeconds
      = resp.pollIntervalSeconds * second := by
    unfold updateIntervalFromResponse
    rw [if_pos hpos]
    show (if resp.pollIntervalSeconds * second ≠ st.pollInterval
        then resp.pollIntervalSeconds * second else st.pollInterval)
      = resp.pollIntervalSeconds * second
    rw [if_pos hne]
  have hbatch : ∀ l : List Instruction, (∀ i ∈ l, i.type = .POLL_INTERVAL →
      (PollIntervalHandler.execute parse (some i)).2 = []) →
      ∀ cur : Int, intervalAfterBatch parse cur l = cur := by
    intro l
    induction l with
    | nil => intro _ cur; rfl
    | cons i rest ih =>
      intro hl cur
      have hstep : intervalAfterInstruction parse cur i = cur := by
        unfold intervalAfterInstruction
        by_cases hty : i.type = .POLL_INTERVAL
        · rw [if_pos hty, hl i (List.mem_cons_self i rest) hty]
          rfl
        · rw [if_neg hty]
      have htail := ih (fun j hj hjt => hl j (List.mem_cons_of_mem i hj) hjt) cur
      show intervalAfterBatch parse cur (i :: rest) = cur
      unfold intervalAfterBatch at htail ⊢
      rw [List.foldl_cons, hstep]
      exact htail
  have hfinal : intervalAfterBatch parse
      (updateIntervalFromResponse st.pollInterval resp.pollIntervalSeconds)
      resp.instructions = resp.pollIntervalSeconds * second := by
    rw [hupd]
    exact hbatch resp.instructions hnoCb _
  exact ⟨hupd, hfinal, hfinal, rfl⟩

/-- Witness for poll_interval_rearm_without_override: a stored 60-second
interval and a response directing 30 seconds whose batch holds only a
health-check instruction re-arm the ticker at 30 seconds. -/
theorem poll_interval_rearm_without_override_witness :
    (tickSuccess cxParse cxLoopState cxResponse30Health).1.pollInterval = 30 * second
    ∧ (tickSuccess cxParse cxLoopState cxResponse30Health).1.tickerPeriod = 30 * second
    ∧ (tickSuccess cxParse cxLoopState cxResponse30Health).2.tickerRearmed = true :=
  have h := poll_interval_rearm_without_override cxParse cxLoopState cxResponse30Health
    (by decide) (by decide) (by decide)
  ⟨h.2.1, h.2.2.1, h.2.2.2⟩

/-- C6: a failed poll cycle obtains the next backoff delay and sleeps for it
synchronously, leaving the ticker cadence and the stored interval untouched;
a successful cycle resets the backoff to its initial value and re-arms the
ticker at the current, possibly just-updated, poll interval. -/
theorem backoff_coupling (st : LoopState) (resp : GetInstructionsResponse) :
    ((tickStep st none).2.backoffSleep = some (st.backoff.next).1
      ∧ (tickStep st none).1.backoff = (st.backoff.next).2
      ∧ (tickStep st none).1.tickerPeriod = st.tickerPeriod
      ∧ (tickStep st none).1.pollInterval = st.pollInterval
      ∧ (tickStep st none).2.tickerRearmed = false)
    ∧ ((tickStep st (some resp)).1.backoff = st.backoff.reset
      ∧ (st.backoff.reset).current = InitialBackoff
      ∧ (tickStep st (some resp)).1.pollInterval
          = updateIntervalFromResponse st.pollInterval resp.pollIntervalSeconds
      ∧ (tickStep st (some resp)).1.tickerPeriod = (tickStep st (some resp)).1.pollInterval
      ∧ (tickStep st (some resp)).2.tickerRearmed = true
      ∧ (tickStep st (some resp)).2.backoffSleep = none) :=
  ⟨⟨rfl, rfl, rfl, rfl, rfl⟩, ⟨rfl, rfl, rfl, rfl, rfl, rfl⟩⟩

/-- C7: upon cancellation the loop attempts exactly one unregister call, made
with a fresh non-cancelled context bounded by a 10-second timeout, and then
returns the cancellation cause regardless of the unregister outcome. -/
theorem shutdown_unregister_bounded (loopCtx : Ctx) (unregister : Ctx → Except String Unit) :
    (shutdownOnCancel loopCtx unregister).unregisterCalls.map Prod.fst
      = [{ cancelled := false, err := none, timeout := some (10 * second) }]
    ∧ (shutdownOnCancel loopCtx unregister).returned = loopCtx.err :=
  ⟨rfl, rfl⟩

/-- C9: a pollIntervalSeconds value delivered in a GetInstructions response
is adopted without the 10..300 validation the poll-interval handler enforces:
every positive value, including 5 and 301, replaces the interval, and only
values at most zero leave it unchanged; the handler, by contrast, rejects 5
and 301 without invoking the callback. -/
theorem interval_update_no_range_check (cur s : Int) :
    (0 < s → updateIntervalFromResponse cur s = s * second)
    ∧ (s ≤ 0 → updateIntervalFromResponse cur s = cur)
    ∧ updateIntervalFromResponse cur 5 = 5 * second
    ∧ updateIntervalFromResponse cur 301 = 301 * second
    ∧ (PollIntervalHandler.execute (fun _ => some 5)
        (some { id := "x", type := .POLL_INTERVAL, payload := "p" })).2 = []
    ∧ (PollIntervalHandler.execute (fun _ => some 301)
        (some { id := "x", type := .POLL_INTERVAL, payload := "p" })).2 = [] := by
  have hgen : ∀ (c v : Int), 0 < v → updateIntervalFromResponse c v = v * second := by
    intro c v hv
    unfold updateIntervalFromResponse
    rw [if_pos hv]
    show (if v * second ≠ c then v * second else c) = v * second
    by_cases hc : v * second ≠ c
    · rw [if_pos hc]
    · rw [if_neg hc]
      exact (not_ne_iff.mp hc).symm
  refine ⟨fun hs => hgen cur s hs, fun hs => ?_, hgen cur 5 (by decide),
    hgen cur 301 (by decide), rfl, rfl⟩
  unfold updateIntervalFromResponse
  rw [if_neg (by omega)]

/-- Witness for interval_update_no_range_check: a stored 60-second interval
is replaced by an out-of-range positive 5, and left unchanged by -3. -/
theorem interval_update_no_range_check_witness :
    updateIntervalFromResponse (60 * second) 5 = 5 * second
    ∧ updateIntervalFromResponse (60 * second) (-3) = 60 * second :=
  ⟨(interval_update_no_range_check (60 * second) 5).1 (by decide),
   (interval_update_no_range_check (60 * second) (-3)).2.1 (by decide)⟩

/-- C10: a poll cycle that fails before instruction processing, because the
client could not be created or the GetInstructions call failed, returns an
error and leaves the whole mutable agent state unchanged, in both the submit
and the piggyback variants, and produces no results. -/
theorem poll_failure_preserves_state (parseHardware : String → Option String) (r : Registry)
    (stA : SubmitAgentState) (stP : PiggybackAgentState) (e : String)
    (f : Except String GetInstructionsResponse) :
    (pollSubmit parseHardware r stA (.error e) f).2.1 = stA
    ∧ (pollSubmit parseHardware r stA (.error e) f).1
        = .error ("failed to create gRPC client: " ++ e)
    ∧ (pollSubmit parseHardware r stA (.error e) f).2.2 = []
    ∧ (pollSubmit parseHardware r stA (.ok ()) (.error e)).2.1 = stA
    ∧ (pollSubmit parseHardware r stA (.ok ()) (.error e)).1
        = .error ("failed to get instructions: " ++ e)
    ∧ (pollSubmit parseHardware r stA (.ok ()) (.error e)).2.2 = []
    ∧ (pollPiggyback r stP (.error e) f).2.1 = stP
    ∧ (pollPiggyback r stP (.error e) f).1 = .error ("failed to create gRPC client: " ++ e)
    ∧ (pollPiggyback r stP (.ok ()) (.error e)).2.1 = stP
    ∧ (pollPiggyback r stP (.ok ()) (.error e)).1 = .error ("failed to get instructions: " ++ e)
    ∧ (pollPiggyback r stP (.ok ()) (.error e)).2.2 = [] :=
  ⟨rfl, rfl, rfl, rfl, rfl, rfl, rfl, rfl, rfl, rfl, rfl⟩

end NetctrlAgent
